import Mathlib

/-!
# Verification of the micro:bit focus-timer repository

Shallow embedding of the core of the repository (the final script
`habitify.py`, and where relevant the earlier variant `focus_timer_pc.py`):

* the line classifier `interpret_event` (Python strings are embedded as
  lists of Unicode code points; `str.strip`/`str.upper` are embedded as
  `pyStrip`/`pyUpper`);
* the `FocusApp` session controller (`start_focus`, `end_focus`,
  `sudden_move`, `update_timer`), embedded as pure state transformers over
  `AppState` that also return the list of external-collaborator calls
  issued, and (for the countdown callback) whether it rescheduled itself;
* the collaborator wrappers (`habitify_add_log` etc.), embedded as total
  functions of the transport outcome, reflecting that they catch every
  exception and only log.
-/

/-- A raw text line, embedded as the list of Unicode code points of its
characters (the embedding of a Python `str`). -/
abbrev RawLine := List Nat

/-- Embedding of Python `str.strip`s whitespace test for the characters that
occur on this wire (ASCII whitespace: space, tab, LF, VT, FF, CR). -/
def pyIsSpace (c : Nat) : Bool :=
  c = 32 || c = 9 || c = 10 || c = 11 || c = 12 || c = 13

/-- Embedding of Python `str.upper` on one character (ASCII case mapping:
the device protocol is ASCII text). -/
def pyUpperChar (c : Nat) : Nat :=
  if 97 ≤ c ∧ c ≤ 122 then c - 32 else c

/-- Embedding of Python `str.upper`. -/
def pyUpper (s : RawLine) : RawLine := s.map pyUpperChar

/-- Embedding of Python `str.strip`: drop whitespace from both ends. -/
def pyStrip (s : RawLine) : RawLine :=
  List.rdropWhile pyIsSpace (List.dropWhile pyIsSpace s)

/-- `leadsWith pat s` holds when `pat` is an initial segment of `s`. -/
def leadsWith : RawLine → RawLine → Bool
  | [], _ => true
  | _ :: _, [] => false
  | p :: ps, c :: cs => p = c && leadsWith ps cs

/-- Embedding of Python `pat in s` (substring containment). -/
def containsSub : RawLine → RawLine → Bool
  | [], pat => leadsWith pat []
  | c :: t, pat => leadsWith pat (c :: t) || containsSub t pat

/-- Code points of a Lean string literal, used to write the token tables. -/
def toCodes (s : String) : RawLine := s.data.map Char.toNat

/-- The canonical event kinds produced by the classifier. -/
inductive EventKind where
  | StartFocus
  | EndFocus
  | SuddenMove
deriving Repr, DecidableEq

/-- The rule cascade of `habitify.py`s `interpret_event` (lines 147-168),
applied to the already stripped-and-uppercased line. -/
def classifyCore (s : RawLine) : Option EventKind :=
  if containsSub s (toCodes "FOCUS") &&
      (containsSub s (toCodes "START") || containsSub s (toCodes "STRT") ||
       containsSub s (toCodes "SART") || containsSub s (toCodes "STAT") ||
       containsSub s (toCodes "TART")) then
    some EventKind.StartFocus
  else if containsSub s (toCodes "FOCUS") &&
      (containsSub s (toCodes "END") || containsSub s (toCodes "STOP") ||
       containsSub s (toCodes "FINISH")) then
    some EventKind.EndFocus
  else if containsSub s (toCodes "MOVE") || containsSub s (toCodes "MOTION") ||
      containsSub s (toCodes "SHAKE") then
    some EventKind.SuddenMove
  else
    none

/-- `interpret_event` of `habitify.py` (lines 147-168): normalize with
`line.strip().upper()`, then run the rule cascade. -/
def interpret_event (line : RawLine) : Option EventKind :=
  classifyCore (pyUpper (pyStrip line))

/-- The rule cascade of `focus_timer_pc.py`s `interpret_event`
(lines 19-42): same shape, but without "TART" among the start tokens and
without "FINISH" among the end tokens. -/
def classifyCorePc (s : RawLine) : Option EventKind :=
  if containsSub s (toCodes "FOCUS") &&
      (containsSub s (toCodes "START") || containsSub s (toCodes "STRT") ||
       containsSub s (toCodes "SART") || containsSub s (toCodes "STAT")) then
    some EventKind.StartFocus
  else if containsSub s (toCodes "FOCUS") &&
      (containsSub s (toCodes "END") || containsSub s (toCodes "STOP")) then
    some EventKind.EndFocus
  else if containsSub s (toCodes "MOVE") || containsSub s (toCodes "MOTION") ||
      containsSub s (toCodes "SHAKE") then
    some EventKind.SuddenMove
  else
    none

/-- `interpret_event` of `focus_timer_pc.py` (lines 19-42). -/
def interpret_event_pc (line : RawLine) : Option EventKind :=
  classifyCorePc (pyUpper (pyStrip line))

/-- The ordered reference classifier, written from the spec's words
(§4.1): named token tables, rules evaluated in order 1, 2, 3, 4. -/
def startTokens : List RawLine :=
  [toCodes "START", toCodes "STRT", toCodes "SART", toCodes "STAT", toCodes "TART"]

/-- End-token table of the reference classifier (spec §4.1 rule 2). -/
def endTokens : List RawLine := [toCodes "END", toCodes "STOP", toCodes "FINISH"]

/-- Movement-token table of the reference classifier (spec §4.1 rule 3). -/
def moveTokens : List RawLine := [toCodes "MOVE", toCodes "MOTION", toCodes "SHAKE"]

/-- The ordered reference definition of `classify` from spec §4.1:
trim, upper-case, then the four ordered, short-circuiting rules over the
named token tables. -/
def classifySpec (line : RawLine) : Option EventKind :=
  let s := pyUpper (pyStrip line)
  if containsSub s (toCodes "FOCUS") && startTokens.any (fun t => containsSub s t) then
    some EventKind.StartFocus
  else if containsSub s (toCodes "FOCUS") && endTokens.any (fun t => containsSub s t) then
    some EventKind.EndFocus
  else if moveTokens.any (fun t => containsSub s t) then
    some EventKind.SuddenMove
  else
    none

/-- The mutable session state owned by `FocusApp` in `habitify.py`
(`__init__`, lines 210-221): the countdown flag and counters.  Wall-clock
timestamps are embedded as integers; the Habitify action id as an opaque
`Nat` handle.  UI widget contents are collaborator state and not embedded. -/
structure AppState where
  focus_active : Bool
  duration : Nat
  remaining : Nat
  current_action_id : Option Nat
  session_start_time : Option Int
  move_count : Nat
deriving Repr, DecidableEq

/-- The initial state built by `FocusApp.__init__`: idle, countdown not
started, no action id, no start time, zero moves. -/
def initState (configuredDuration : Nat) : AppState :=
  { focus_active := false
    duration := configuredDuration
    remaining := 0
    current_action_id := none
    session_start_time := none
    move_count := 0 }

/-- A call issued by the controller to an external collaborator, in issue
order.  `addLog value endTime` is `habitify_add_log`; `recordCSV endTime
elapsed moves` is `log_session_to_csv`; `completeAction i` is
`habitify_complete_action` on a held id; `createAction` is
`habitify_create_action`; `enterFocus`/`leaveFocus` are
`enter_desktop_focus`/`leave_desktop_focus`; `showWarning` is the transient
movement warning. -/
inductive Effect where
  | createAction
  | addLog (value : Nat) (endTime : Int)
  | recordCSV (endTime : Int) (elapsed : Int) (moves : Nat)
  | completeAction (id : Nat)
  | enterFocus
  | leaveFocus
  | showWarning
deriving Repr, DecidableEq

/-- `FocusApp.update_timer` (`habitify.py` lines 529-566), at wall-clock
time `now`.  Returns the new state, the collaborator calls issued, and
whether the callback rescheduled itself (`self.root.after(1000, ...)`).
If the session is not active it returns at once; if `remaining` has reached
0 it performs the auto-complete side effects and stops; otherwise it
decrements `remaining` and reschedules. -/
def update_timer (now : Int) (s : AppState) : AppState × List Effect × Bool :=
  if s.focus_active = false then
    (s, [], false)
  else if s.remaining = 0 then
    let logCalls : List Effect :=
      match s.session_start_time with
      | some st => [Effect.addLog 1 now, Effect.recordCSV now (now - st) s.move_count]
      | none => []
    let completeCalls : List Effect :=
      match s.current_action_id with
      | some i => [Effect.completeAction i]
      | none => []
    ({ s with focus_active := false
              current_action_id := none
              session_start_time := none },
     logCalls ++ completeCalls ++ [Effect.leaveFocus], false)
  else
    ({ s with remaining := s.remaining - 1 }, [], true)

/-- `FocusApp.start_focus` (`habitify.py` lines 456-482), at wall-clock
time `now`.  `createdId` is the id returned by the external
`habitify_create_action` call (`None` when Habitify returns no id).
If a session is already active the method returns immediately; otherwise it
activates the session, resets `remaining` and `move_count`, records the
start time, stores the created action id, enters desktop focus and runs
`update_timer` once synchronously. -/
def start_focus (now : Int) (createdId : Option Nat) (s : AppState) :
    AppState × List Effect × Bool :=
  if s.focus_active = true then
    (s, [], false)
  else
    let s1 : AppState :=
      { s with focus_active := true
               remaining := s.duration
               move_count := 0
               session_start_time := some now
               current_action_id := createdId }
    let r := update_timer now s1
    (r.1, [Effect.createAction, Effect.enterFocus] ++ r.2.1, r.2.2)

/-- `FocusApp.end_focus` (`habitify.py` lines 484-518), at wall-clock time
`now`.  If no session is active it returns immediately; otherwise it
deactivates the session, and — when a start time was recorded — logs one
rep to Habitify and appends the CSV history row with
`elapsed = now - start_time`; completes the held action id if any; leaves
desktop focus; clears the start time.  `remaining` and `move_count` are not
touched. -/
def end_focus (now : Int) (s : AppState) : AppState × List Effect :=
  if s.focus_active = false then
    (s, [])
  else
    let logCalls : List Effect :=
      match s.session_start_time with
      | some st => [Effect.addLog 1 now, Effect.recordCSV now (now - st) s.move_count]
      | none => []
    let completeCalls : List Effect :=
      match s.current_action_id with
      | some i => [Effect.completeAction i]
      | none => []
    ({ s with focus_active := false
              current_action_id := none
              session_start_time := none },
     logCalls ++ completeCalls ++ [Effect.leaveFocus])

/-- `FocusApp.sudden_move` (`habitify.py` lines 520-527): increments
`move_count` and shows the transient warning.  The method does not test
`focus_active`. -/
def sudden_move (s : AppState) : AppState × List Effect :=
  ({ s with move_count := s.move_count + 1 }, [Effect.showWarning])

/-- Number of `addLog` (Habitify "add log" / record-session) calls in an
effect list. -/
def countAddLog (effs : List Effect) : Nat :=
  effs.countP (fun e => match e with | Effect.addLog _ _ => true | _ => false)

/-- Number of `recordCSV` (history-record) calls in an effect list. -/
def countCSV (effs : List Effect) : Nat :=
  effs.countP (fun e => match e with | Effect.recordCSV _ _ _ => true | _ => false)

/-- Outcome of one HTTP transport attempt by a collaborator wrapper:
either a response (status code and body text) or a raised exception. -/
inductive HttpResult where
  | resp (status : Nat) (text : String)
  | exn (msg : String)
deriving Repr, DecidableEq

/-- A line printed by a collaborator wrapper or the CSV writer, keeping
only what the error-handling claims need. -/
inductive LogEntry where
  | addLogStatus (status : Nat) (text : String)
  | addLogError (msg : String)
  | completeStatus (status : Nat)
  | completeError (text : String)
  | completeDone
  | completeExn (msg : String)
  | csvError (msg : String)
deriving Repr, DecidableEq

/-- `habitify_add_log` (`habitify.py` lines 115-143) as a function of the
transport outcome: the whole request is inside `try`/`except`, so the
wrapper is total — on a response it prints the status and body, on an
exception it prints the error; nothing propagates to the caller. -/
def habitify_add_log (r : HttpResult) : List LogEntry :=
  match r with
  | HttpResult.resp status text => [LogEntry.addLogStatus status text]
  | HttpResult.exn msg => [LogEntry.addLogError msg]

/-- `habitify_complete_action` (`habitify.py` lines 91-111) as a function
of the transport outcome, for a held (non-`None`) action id: status 200/201
prints "Done", other statuses print the error body, an exception prints the
error; nothing propagates. -/
def habitify_complete_action (r : HttpResult) : List LogEntry :=
  match r with
  | HttpResult.resp status text =>
      if status = 200 ∨ status = 201 then
        [LogEntry.completeStatus status, LogEntry.completeDone]
      else
        [LogEntry.completeStatus status, LogEntry.completeError text]
  | HttpResult.exn msg => [LogEntry.completeExn msg]

/-- `log_session_to_csv` (`habitify.py` lines 367-383) as a function of the
file-write outcome: the open/write is inside `try`/`except`, so a failure
only prints the error. -/
def log_session_to_csv (w : Except String Unit) : List LogEntry :=
  match w with
  | Except.ok _ => []
  | Except.error msg => [LogEntry.csvError msg]

/-- `FocusApp.end_focus` again (`habitify.py` lines 484-518), now also
tracking the collaborator outcomes `addR` (the `habitify_add_log` POST),
`csvR` (the CSV write) and `compR` (the `habitify_complete_action` PUT),
and returning the printed log entries next to the state and the attempted
calls. -/
def end_focus_run (now : Int) (addR : HttpResult) (csvR : Except String Unit)
    (compR : HttpResult) (s : AppState) : AppState × List Effect × List LogEntry :=
  if s.focus_active = false then
    (s, [], [])
  else
    let logPart : List Effect × List LogEntry :=
      match s.session_start_time with
      | some st =>
          ([Effect.addLog 1 now, Effect.recordCSV now (now - st) s.move_count],
           habitify_add_log addR ++ log_session_to_csv csvR)
      | none => ([], [])
    let compPart : List Effect × List LogEntry :=
      match s.current_action_id with
      | some i => ([Effect.completeAction i], habitify_complete_action compR)
      | none => ([], [])
    ({ s with focus_active := false
              current_action_id := none
              session_start_time := none },
     logPart.1 ++ compPart.1 ++ [Effect.leaveFocus],
     logPart.2 ++ compPart.2)

/-- The session state of the earlier `focus_timer_pc.py` `FocusApp`
(`__init__`, lines 84-86): that version has no action id, no start time
and no move counter. -/
structure PcState where
  focus_active : Bool
  duration : Nat
  remaining : Nat
deriving Repr, DecidableEq

/-- `FocusApp.update_timer` of `focus_timer_pc.py` (lines 160-175): no
collaborator calls; returns the new state and whether the callback
rescheduled itself. -/
def update_timer_pc (s : PcState) : PcState × Bool :=
  if s.focus_active = false then
    (s, false)
  else if s.remaining = 0 then
    ({ s with focus_active := false }, false)
  else
    ({ s with remaining := s.remaining - 1 }, true)

/-- `FocusApp.start_focus` of `focus_timer_pc.py` (lines 135-146): if the
timer was not running and time remains, keep `remaining` (resume a paused
countdown); otherwise — including when a session is already active — reset
`remaining` to the configured duration; then set `focus_active` and invoke
`update_timer` synchronously, scheduling a fresh tick chain. -/
def start_focus_pc (s : PcState) : PcState × Bool :=
  let s0 := if s.focus_active = false ∧ 0 < s.remaining then s
            else { s with remaining := s.duration }
  update_timer_pc { s0 with focus_active := true }

/-- What the body of `serial_listener` (`habitify.py` lines 172-177,
identical in `focus_timer_pc.py` lines 46-51) does at startup, as a
function of the outcome of opening the serial endpoint: on failure it
prints and calls `sys.exit(1)`, which raises `SystemExit`; on success the
body enters the read loop. -/
inductive ThreadOutcome where
  | raisedSystemExit (code : Nat)
  | running
deriving Repr, DecidableEq

/-- The startup of the `serial_listener` body: `serial.Serial` inside
`try`; `except SerialException` prints and calls `sys.exit(1)`. -/
def serial_listener_thread (openResult : Except String Unit) : ThreadOutcome :=
  match openResult with
  | Except.error _ => ThreadOutcome.raisedSystemExit 1
  | Except.ok _ => ThreadOutcome.running

/-- Observable process state once `main` (`habitify.py` lines 583-589) has
started `serial_listener` on a daemon thread and entered the Tk main
loop. -/
inductive ProcessState where
  | mainLoopRunning (listenerAlive : Bool)
  | exited (code : Nat)
deriving Repr, DecidableEq

/-- `main` (`habitify.py` lines 583-589) combined with Python's thread
semantics: `serial_listener` runs as the target of a daemon `Thread`, and a
`SystemExit` raised inside a non-main thread is swallowed by
`Thread._bootstrap_inner`, terminating only that thread — the Tk main loop
keeps running either way, and no path of `main` reaches a process exit. -/
def main_after_listener (openResult : Except String Unit) : ProcessState :=
  match serial_listener_thread openResult with
  | ThreadOutcome.raisedSystemExit _ => ProcessState.mainLoopRunning false
  | ThreadOutcome.running => ProcessState.mainLoopRunning true

example : interpret_event (toCodes "  tart_focus ") = some EventKind.StartFocus := by decide
example : interpret_event_pc (toCodes "TART_FOCUS") = none := by decide
example : classifySpec (toCodes "TART_FOCUS") = some EventKind.StartFocus := by decide
example : interpret_event (toCodes "FOCUS START END") = some EventKind.StartFocus := by decide
example : interpret_event (toCodes "xyzzy") = none := by decide
example : interpret_event (toCodes "shake!") = some EventKind.SuddenMove := by decide

theorem update_timer_move_count (now : Int) (s : AppState) :
    (update_timer now s).1.move_count = s.move_count := by
  obtain ⟨fa, d, r, cid, sst, mc⟩ := s
  simp only [update_timer]
  split
  · rfl
  · split
    · rfl
    · rfl

/-- C3 counterexample: in `focus_timer_pc.py`, a `StartFocus` arriving
while a session is already active is not ignored: at the active state with
`remaining = 900`, `duration = 1500`, it resets `remaining` to the
configured duration (the synchronously re-invoked `update_timer` then
decrements it to 1499) and schedules a fresh tick chain, so the session
state is changed. -/
theorem start_focus_pc_active_counterexample :
    (PcState.mk true 1500 900).focus_active = true ∧
    (start_focus_pc (PcState.mk true 1500 900)).1 ≠ PcState.mk true 1500 900 ∧
    (start_focus_pc (PcState.mk true 1500 900)).1.remaining = 1499 ∧
    (start_focus_pc (PcState.mk true 1500 900)).2 = true := by
  decide

/-- C3 (amended): in `habitify.py`, a `StartFocus` applied while the
session is already active is ignored entirely — state unchanged, no
collaborator call issued, no tick scheduled (at most one concurrent
session); in the earlier `focus_timer_pc.py`, it is not ignored: it resets
`remaining` to the configured duration (the synchronous `update_timer`
call then decrements it once) and schedules a new tick chain. -/
theorem start_focus_while_active_behavior (now : Int) (createdId : Option Nat)
    (s : AppState) (t : PcState) (h : s.focus_active = true)
    (ht : t.focus_active = true) (hd : 0 < t.duration) :
    start_focus now createdId s = (s, [], false) ∧
    (start_focus_pc t).1 = { t with remaining := t.duration - 1 } ∧
    (start_focus_pc t).2 = true := by
  have hd0 : t.duration ≠ 0 := Nat.pos_iff_ne_zero.mp hd
  refine ⟨by simp [start_focus, h], ?_, ?_⟩ <;>
    simp [start_focus_pc, update_timer_pc, ht, hd0]

theorem start_focus_while_active_behavior_witness :
    (AppState.mk true 1500 900 (some 7) (some 100) 2).focus_active = true ∧
    (PcState.mk true 1500 900).focus_active = true ∧
    0 < (PcState.mk true 1500 900).duration ∧
    start_focus 5 none (AppState.mk true 1500 900 (some 7) (some 100) 2) =
      (AppState.mk true 1500 900 (some 7) (some 100) 2, [], false) ∧
    (start_focus_pc (PcState.mk true 1500 900)).1 =
      { PcState.mk true 1500 900 with
          remaining := (PcState.mk true 1500 900).duration - 1 } ∧
    (start_focus_pc (PcState.mk true 1500 900)).2 = true := by
  have h := start_focus_while_active_behavior 5 none
    (AppState.mk true 1500 900 (some 7) (some 100) 2) (PcState.mk true 1500 900)
    rfl rfl (by decide)
  exact ⟨rfl, rfl, by decide, h.1, h.2.1, h.2.2⟩

/-- C1 counterexample: a `SuddenMove` applied in the initial (Idle) state
changes the session state — `sudden_move` increments `move_count` without
testing `focus_active`, so the event is not ignored while Idle. -/
theorem sudden_move_idle_counterexample :
    (initState 1500).focus_active = false ∧
    (sudden_move (initState 1500)).1 ≠ initState 1500 ∧
    (sudden_move (initState 1500)).1.move_count = 1 := by
  refine ⟨rfl, ?_, rfl⟩
  decide

/-- C1 (amended): `move_count` is reset to 0 on every Idle→Active
transition, but a `SuddenMove` event increments `move_count` regardless of
the session state (in particular also while Idle); a `SuddenMove` changes no
session field other than `move_count`. -/
theorem move_count_reset_on_start_incremented_always (now : Int)
    (createdId : Option Nat) (s : AppState) :
    (sudden_move s).1 = { s with move_count := s.move_count + 1 } ∧
    (s.focus_active = false → (start_focus now createdId s).1.move_count = 0) := by
  refine ⟨rfl, fun h => ?_⟩
  simp only [start_focus, h, Bool.false_eq_true, if_false]
  rw [update_timer_move_count]

theorem move_count_reset_on_start_incremented_always_witness :
    (sudden_move (initState 1500)).1 =
      { initState 1500 with move_count := (initState 1500).move_count + 1 } ∧
    ((initState 1500).focus_active = false →
      (start_focus 5 none (initState 1500)).1.move_count = 0) :=
  move_count_reset_on_start_incremented_always 5 none (initState 1500)

/-- C10: ending a session — by explicit `end_focus` or by the countdown
reaching 0 in `update_timer` — clears `session_start_time` and
`current_action_id` but leaves `move_count`, `remaining` and the configured
`duration` unchanged; and the retained `move_count` is reset to 0 by the
next Idle→Active transition. -/
theorem end_focus_frame (now nextStart : Int) (createdId : Option Nat)
    (s : AppState) (h : s.focus_active = true) :
    (end_focus now s).1 = { s with focus_active := false
                                   current_action_id := none
                                   session_start_time := none } ∧
    (s.remaining = 0 →
      (update_timer now s).1 = { s with focus_active := false
                                        current_action_id := none
                                        session_start_time := none }) ∧
    (start_focus nextStart createdId (end_focus now s).1).1.move_count = 0 := by
  refine ⟨?_, fun h0 => ?_, ?_⟩
  · simp [end_focus, h]
  · simp [update_timer, h, h0]
  · have hidle : (end_focus now s).1.focus_active = false := by
      simp [end_focus, h]
    simp only [start_focus, hidle, Bool.false_eq_true, if_false]
    rw [update_timer_move_count]

theorem end_focus_frame_witness :
    (AppState.mk true 1500 900 (some 7) (some 100) 2).focus_active = true ∧
    (end_focus 5 (AppState.mk true 1500 900 (some 7) (some 100) 2)).1 =
      { AppState.mk true 1500 900 (some 7) (some 100) 2 with
          focus_active := false
          current_action_id := none
          session_start_time := none } ∧
    ((AppState.mk true 1500 900 (some 7) (some 100) 2).remaining = 0 →
      (update_timer 5 (AppState.mk true 1500 900 (some 7) (some 100) 2)).1 =
        { AppState.mk true 1500 900 (some 7) (some 100) 2 with
            focus_active := false
            current_action_id := none
            session_start_time := none }) ∧
    (start_focus 9 (some 3)
        (end_focus 5 (AppState.mk true 1500 900 (some 7) (some 100) 2)).1).1.move_count = 0 :=
  ⟨rfl, end_focus_frame 5 9 (some 3) _ rfl⟩

/-- C8: a countdown tick never increases `remaining`; the tick reschedules
itself exactly when the session is active with `remaining` still positive
(so it is never rescheduled once the session leaves Active by any path);
and while Active, the tick deactivates the session exactly when `remaining`
equals 0 — i.e. `remaining` is exactly 0 at the auto-completing tick. -/
theorem update_timer_monotone_reschedule (now : Int) (s : AppState) :
    (update_timer now s).1.remaining ≤ s.remaining ∧
    ((update_timer now s).2.2 = true ↔ (s.focus_active = true ∧ ¬ s.remaining = 0)) ∧
    (s.focus_active = true →
      ((update_timer now s).1.focus_active = false ↔ s.remaining = 0)) := by
  obtain ⟨fa, d, r, cid, sst, mc⟩ := s
  cases fa
  · simp [update_timer]
  · cases r with
    | zero => simp [update_timer]
    | succ n => simp [update_timer]

theorem update_timer_monotone_reschedule_witness :
    (update_timer 5 (AppState.mk true 1500 900 (some 7) (some 100) 2)).1.remaining ≤ 900 ∧
    ((update_timer 5 (AppState.mk true 1500 900 (some 7) (some 100) 2)).2.2 = true ↔
      ((AppState.mk true 1500 900 (some 7) (some 100) 2).focus_active = true ∧
        ¬ (AppState.mk true 1500 900 (some 7) (some 100) 2).remaining = 0)) ∧
    ((AppState.mk true 1500 900 (some 7) (some 100) 2).focus_active = true →
      ((update_timer 5 (AppState.mk true 1500 900 (some 7) (some 100) 2)).1.focus_active = false ↔
        (AppState.mk true 1500 900 (some 7) (some 100) 2).remaining = 0)) :=
  update_timer_monotone_reschedule 5 (AppState.mk true 1500 900 (some 7) (some 100) 2)

/-- C4: when the countdown reaches 0 while Active, `update_timer` produces
exactly the state and the collaborator-call sequence of an explicit
`end_focus` at the same instant; the recorded elapsed time is
`now - start_time` (not the configured duration); and the session returns
to Idle. -/
theorem timeout_side_effects_eq_end_focus (now : Int) (s : AppState)
    (h : s.focus_active = true) (h0 : s.remaining = 0) :
    (update_timer now s).1 = (end_focus now s).1 ∧
    (update_timer now s).2.1 = (end_focus now s).2 ∧
    (∀ st, s.session_start_time = some st →
      (update_timer now s).2.1 =
        [Effect.addLog 1 now, Effect.recordCSV now (now - st) s.move_count] ++
        (match s.current_action_id with
         | some i => [Effect.completeAction i]
         | none => []) ++ [Effect.leaveFocus]) ∧
    (update_timer now s).1.focus_active = false := by
  refine ⟨?_, ?_, fun st hst => ?_, ?_⟩
  · simp [update_timer, end_focus, h, h0]
  · simp [update_timer, end_focus, h, h0]
  · simp [update_timer, h, h0, hst]
  · simp [update_timer, h, h0]

theorem timeout_side_effects_eq_end_focus_witness :
    (AppState.mk true 1500 0 (some 7) (some 100) 2).focus_active = true ∧
    (AppState.mk true 1500 0 (some 7) (some 100) 2).remaining = 0 ∧
    (update_timer 5 (AppState.mk true 1500 0 (some 7) (some 100) 2)).1 =
      (end_focus 5 (AppState.mk true 1500 0 (some 7) (some 100) 2)).1 ∧
    (update_timer 5 (AppState.mk true 1500 0 (some 7) (some 100) 2)).2.1 =
      (end_focus 5 (AppState.mk true 1500 0 (some 7) (some 100) 2)).2 ∧
    (update_timer 5 (AppState.mk true 1500 0 (some 7) (some 100) 2)).2.1 =
      [Effect.addLog 1 5, Effect.recordCSV 5 (5 - 100) 2,
       Effect.completeAction 7, Effect.leaveFocus] := by
  have h := timeout_side_effects_eq_end_focus 5
    (AppState.mk true 1500 0 (some 7) (some 100) 2) rfl rfl
  exact ⟨rfl, rfl, h.1, h.2.1, by simpa using h.2.2.1 100 rfl⟩

theorem end_focus_idle (now : Int) (s : AppState) (h : s.focus_active = false) :
    end_focus now s = (s, []) := by
  simp [end_focus, h]

/-- C5: ending an active session — explicitly or by timeout — issues
exactly one `addLog` (record-session) call and exactly one history-record
call; a second `EndFocus` arriving in the resulting Idle state is a no-op
that issues no call and leaves the state unchanged. -/
theorem end_session_logs_exactly_once (now nextEnd st : Int) (s : AppState)
    (h : s.focus_active = true) (hst : s.session_start_time = some st) :
    countAddLog (end_focus now s).2 = 1 ∧
    countCSV (end_focus now s).2 = 1 ∧
    (s.remaining = 0 → countAddLog (update_timer now s).2.1 = 1) ∧
    end_focus nextEnd (end_focus now s).1 = ((end_focus now s).1, []) := by
  have hidle : (end_focus now s).1.focus_active = false := by
    simp [end_focus, h]
  refine ⟨?_, ?_, fun h0 => ?_, end_focus_idle nextEnd _ hidle⟩
  · cases hcid : s.current_action_id <;>
      simp [end_focus, h, hst, hcid, countAddLog, List.countP_append, List.countP_cons]
  · cases hcid : s.current_action_id <;>
      simp [end_focus, h, hst, hcid, countCSV, List.countP_append, List.countP_cons]
  · cases hcid : s.current_action_id <;>
      simp [update_timer, h, h0, hst, hcid, countAddLog, List.countP_append, List.countP_cons]

theorem end_session_logs_exactly_once_witness :
    (AppState.mk true 1500 0 (some 7) (some 100) 2).focus_active = true ∧
    (AppState.mk true 1500 0 (some 7) (some 100) 2).session_start_time = some 100 ∧
    countAddLog (end_focus 5 (AppState.mk true 1500 0 (some 7) (some 100) 2)).2 = 1 ∧
    countCSV (end_focus 5 (AppState.mk true 1500 0 (some 7) (some 100) 2)).2 = 1 ∧
    ((AppState.mk true 1500 0 (some 7) (some 100) 2).remaining = 0 →
      countAddLog (update_timer 5 (AppState.mk true 1500 0 (some 7) (some 100) 2)).2.1 = 1) ∧
    end_focus 9 (end_focus 5 (AppState.mk true 1500 0 (some 7) (some 100) 2)).1 =
      ((end_focus 5 (AppState.mk true 1500 0 (some 7) (some 100) 2)).1, []) := by
  have h := end_session_logs_exactly_once 5 9 100
    (AppState.mk true 1500 0 (some 7) (some 100) 2) rfl rfl
  exact ⟨rfl, rfl, h.1, h.2.1, h.2.2.1, h.2.2.2⟩

/-- C6: a failing Habitify or CSV collaborator call changes nothing about
the applied transition: the post-state and the sequence of attempted calls
of `end_focus` are the same for every combination of collaborator outcomes
(no rollback, no retry — each call is attempted exactly once), and an
exception raised inside `habitify_add_log` is merely logged. -/
theorem collaborator_failure_preserves_transition (now : Int)
    (a a' c c' : HttpResult) (w w' : Except String Unit)
    (st : Int) (e : String) (s : AppState)
    (h : s.focus_active = true) (hst : s.session_start_time = some st) :
    (end_focus_run now a w c s).1 = (end_focus now s).1 ∧
    (end_focus_run now a w c s).2.1 = (end_focus now s).2 ∧
    (end_focus_run now a w c s).1 = (end_focus_run now a' w' c' s).1 ∧
    (end_focus_run now a w c s).2.1 = (end_focus_run now a' w' c' s).2.1 ∧
    LogEntry.addLogError e ∈ (end_focus_run now (HttpResult.exn e) w c s).2.2 := by
  cases hcid : s.current_action_id <;>
    simp [end_focus_run, end_focus, h, hst, hcid, habitify_add_log]

theorem collaborator_failure_preserves_transition_witness :
    (AppState.mk true 1500 0 (some 7) (some 100) 2).focus_active = true ∧
    (AppState.mk true 1500 0 (some 7) (some 100) 2).session_start_time = some 100 ∧
    (end_focus_run 5 (HttpResult.exn "boom") (Except.error "disk full")
        (HttpResult.resp 500 "err") (AppState.mk true 1500 0 (some 7) (some 100) 2)).1 =
      (end_focus 5 (AppState.mk true 1500 0 (some 7) (some 100) 2)).1 ∧
    (end_focus_run 5 (HttpResult.exn "boom") (Except.error "disk full")
        (HttpResult.resp 500 "err") (AppState.mk true 1500 0 (some 7) (some 100) 2)).2.1 =
      (end_focus 5 (AppState.mk true 1500 0 (some 7) (some 100) 2)).2 ∧
    (end_focus_run 5 (HttpResult.exn "boom") (Except.error "disk full")
        (HttpResult.resp 500 "err") (AppState.mk true 1500 0 (some 7) (some 100) 2)).1 =
      (end_focus_run 5 (HttpResult.resp 200 "ok") (Except.ok ())
        (HttpResult.resp 200 "ok") (AppState.mk true 1500 0 (some 7) (some 100) 2)).1 ∧
    (end_focus_run 5 (HttpResult.exn "boom") (Except.error "disk full")
        (HttpResult.resp 500 "err") (AppState.mk true 1500 0 (some 7) (some 100) 2)).2.1 =
      (end_focus_run 5 (HttpResult.resp 200 "ok") (Except.ok ())
        (HttpResult.resp 200 "ok") (AppState.mk true 1500 0 (some 7) (some 100) 2)).2.1 ∧
    LogEntry.addLogError "boom" ∈ (end_focus_run 5 (HttpResult.exn "boom")
        (Except.error "disk full") (HttpResult.resp 500 "err")
        (AppState.mk true 1500 0 (some 7) (some 100) 2)).2.2 := by
  have h := collaborator_failure_preserves_transition 5
    (HttpResult.exn "boom") (HttpResult.resp 200 "ok")
    (HttpResult.resp 500 "err") (HttpResult.resp 200 "ok")
    (Except.error "disk full") (Except.ok ()) 100 "boom"
    (AppState.mk true 1500 0 (some 7) (some 100) 2) rfl rfl
  exact ⟨rfl, rfl, h.1, h.2.1, h.2.2.1, h.2.2.2.1, h.2.2.2.2⟩

/-- C7: when the serial endpoint cannot be opened, `serial_listener` calls
`sys.exit(1)` — but it runs as a daemon thread, where the raised
`SystemExit` is swallowed and terminates only that thread: the Tk main
loop keeps running (with its window still withdrawn) and no path of `main`
reaches a process exit, so the program does not abort startup as the spec
requires. -/
theorem serial_open_failure_not_fatal :
    serial_listener_thread (Except.error "could not open serial port") =
      ThreadOutcome.raisedSystemExit 1 ∧
    main_after_listener (Except.error "could not open serial port") =
      ProcessState.mainLoopRunning false ∧
    ∀ code, main_after_listener (Except.error "could not open serial port") ≠
      ProcessState.exited code := by
  refine ⟨rfl, rfl, fun code => ?_⟩
  simp [main_after_listener, serial_listener_thread]

/-- C2 counterexample: the repository holds two classifiers, and the older
one, `interpret_event` of `focus_timer_pc.py`, does not equal the ordered
reference definition: on the line "TART_FOCUS" the reference (and
`habitify.py`) yields `StartFocus`, while `focus_timer_pc.py` yields no
event, because its start-token set lacks "TART". -/
theorem interpret_event_pc_ne_spec_counterexample :
    interpret_event_pc (toCodes "TART_FOCUS") = none ∧
    classifySpec (toCodes "TART_FOCUS") = some EventKind.StartFocus ∧
    interpret_event (toCodes "TART_FOCUS") = some EventKind.StartFocus ∧
    interpret_event_pc (toCodes "FOCUS FINISH") = none ∧
    classifySpec (toCodes "FOCUS FINISH") = some EventKind.EndFocus := by
  refine ⟨by decide, by decide, by decide, by decide, by decide⟩

/-- C2 (amended): `interpret_event` of `habitify.py` equals the ordered
reference definition of spec §4.1 on every input — trim and upper-case,
then rule 1 ("FOCUS" plus a start token) before rule 2 ("FOCUS" plus an
end token) before rule 3 (a movement token), else no event — so in
particular a line containing "FOCUS", a start token and an end token
yields `StartFocus`.  (The older `focus_timer_pc.py` variant deviates:
its token sets lack "TART" and "FINISH".) -/
theorem interpret_event_eq_classifySpec (line : RawLine) :
    interpret_event line = classifySpec line := by
  simp only [interpret_event, classifyCore, classifySpec, startTokens, endTokens,
    moveTokens, List.any_cons, List.any_nil, Bool.or_false, Bool.or_assoc]

theorem pyUpperChar_idem (c : Nat) : pyUpperChar (pyUpperChar c) = pyUpperChar c := by
  by_cases h : 97 ≤ c ∧ c ≤ 122
  · have h2 : ¬ (97 ≤ c - 32 ∧ c - 32 ≤ 122) := by omega
    simp [pyUpperChar, h, h2]
    omega
  · simp [pyUpperChar, h]

theorem pyIsSpace_pyUpperChar (c : Nat) : pyIsSpace (pyUpperChar c) = pyIsSpace c := by
  by_cases h : 97 ≤ c ∧ c ≤ 122
  · have h1 : pyIsSpace (c - 32) = false := by
      simp only [pyIsSpace, Bool.or_eq_false_iff, decide_eq_false_iff_not]
      omega
    have h2 : pyIsSpace c = false := by
      simp only [pyIsSpace, Bool.or_eq_false_iff, decide_eq_false_iff_not]
      omega
    rw [pyUpperChar, if_pos h, h1, h2]
  · rw [pyUpperChar, if_neg h]

theorem pyUpper_idem (l : RawLine) : pyUpper (pyUpper l) = pyUpper l := by
  induction l with
  | nil => rfl
  | cons c t ih =>
    simp only [pyUpper, List.map_cons] at ih ⊢
    rw [pyUpperChar_idem]
    exact congrArg _ ih

theorem dropWhile_pyUpper (l : RawLine) :
    List.dropWhile pyIsSpace (pyUpper l) = pyUpper (List.dropWhile pyIsSpace l) := by
  induction l with
  | nil => rfl
  | cons c t ih =>
    simp only [pyUpper, List.map_cons, List.dropWhile_cons, pyIsSpace_pyUpperChar]
    by_cases h : pyIsSpace c = true
    · simpa [h, pyUpper] using ih
    · simp [h, pyUpper]

theorem pyUpper_reverse (l : RawLine) : (pyUpper l).reverse = pyUpper l.reverse := by
  simp [pyUpper, List.map_reverse]

theorem pyStrip_pyUpper (l : RawLine) : pyStrip (pyUpper l) = pyUpper (pyStrip l) := by
  simp only [pyStrip, List.rdropWhile]
  rw [dropWhile_pyUpper, pyUpper_reverse, dropWhile_pyUpper, ← pyUpper_reverse]

theorem dropWhile_append_all {ws : RawLine} (l : RawLine)
    (h : ∀ c ∈ ws, pyIsSpace c = true) :
    List.dropWhile pyIsSpace (ws ++ l) = List.dropWhile pyIsSpace l := by
  induction ws with
  | nil => rfl
  | cons c t ih =>
    have hc : pyIsSpace c = true := h c (by simp)
    simp only [List.cons_append, List.dropWhile_cons, hc, if_true]
    exact ih (fun x hx => h x (by simp [hx]))

theorem dropWhile_append_of_ne_nil {t : RawLine} (ws : RawLine)
    (h : List.dropWhile pyIsSpace t ≠ []) :
    List.dropWhile pyIsSpace (t ++ ws) = List.dropWhile pyIsSpace t ++ ws := by
  induction t with
  | nil => simp at h
  | cons c r ih =>
    by_cases hc : pyIsSpace c = true
    · simp only [List.dropWhile_cons, hc, if_true] at h
      simp only [List.cons_append, List.dropWhile_cons, hc, if_true]
      exact ih h
    · simp [List.dropWhile_cons, hc]

theorem rdropWhile_append_all {ws : RawLine} (l : RawLine)
    (h : ∀ c ∈ ws, pyIsSpace c = true) :
    List.rdropWhile pyIsSpace (l ++ ws) = List.rdropWhile pyIsSpace l := by
  simp only [List.rdropWhile, List.reverse_append]
  rw [dropWhile_append_all l.reverse (fun c hc => h c (List.mem_reverse.mp hc))]

theorem pyStrip_pad (pre post l : RawLine)
    (hpre : ∀ c ∈ pre, pyIsSpace c = true) (hpost : ∀ c ∈ post, pyIsSpace c = true) :
    pyStrip (pre ++ l ++ post) = pyStrip l := by
  rw [List.append_assoc]
  have h1 : pyStrip (pre ++ (l ++ post)) = pyStrip (l ++ post) := by
    simp only [pyStrip]
    rw [dropWhile_append_all (l ++ post) hpre]
  rw [h1]
  by_cases hnil : List.dropWhile pyIsSpace l = []
  · have hall : ∀ c ∈ l, pyIsSpace c = true := List.dropWhile_eq_nil_iff.mp hnil
    have h2 : List.dropWhile pyIsSpace (l ++ post) = [] := by
      rw [dropWhile_append_all post hall]
      exact List.dropWhile_eq_nil_iff.mpr hpost
    simp [pyStrip, h2, hnil]
  · simp only [pyStrip]
    rw [dropWhile_append_of_ne_nil post hnil, rdropWhile_append_all _ hpost]

/-- C9: the classifier is case-insensitive — `interpret_event` gives the
same event on `s` and on the upper-cased `s` — and invariant under adding
leading and trailing whitespace. -/
theorem interpret_event_case_whitespace_insensitive (s pre post : RawLine)
    (hpre : ∀ c ∈ pre, pyIsSpace c = true) (hpost : ∀ c ∈ post, pyIsSpace c = true) :
    interpret_event (pyUpper s) = interpret_event s ∧
    interpret_event (pre ++ s ++ post) = interpret_event s := by
  constructor
  · simp only [interpret_event]
    rw [pyStrip_pyUpper, pyUpper_idem]
  · simp only [interpret_event]
    rw [pyStrip_pad pre post s hpre hpost]

theorem interpret_event_case_whitespace_insensitive_witness :
    (∀ c ∈ toCodes "  ", pyIsSpace c = true) ∧
    (∀ c ∈ toCodes " ", pyIsSpace c = true) ∧
    interpret_event (pyUpper (toCodes "focus start")) =
      interpret_event (toCodes "focus start") ∧
    interpret_event (toCodes "  " ++ toCodes "focus start" ++ toCodes " ") =
      interpret_event (toCodes "focus start") := by
  have h := interpret_event_case_whitespace_insensitive (toCodes "focus start")
    (toCodes "  ") (toCodes " ") (by decide) (by decide)
  exact ⟨by decide, by decide, h.1, h.2⟩
